import Mathlib

/-!
Verification of the client authentication/session component of a
course-catalog React application.

The development shallowly embeds the code of
`src/client/src/context/UserContext.jsx`,
`src/client/src/utils/cookieUtils.js`,
`src/client/src/components/PrivateRoute.jsx` and the revision variants
in `src/unnamed/part_000` (hand-rolled base64 `UserContext`) and
`src/unnamed/part_004` (path-preserving `PrivateRoute`) as pure Lean
functions over an explicit application state.

Modelling conventions:
- JS strings are Lean `String`s; `charCodeAt`/`Uint8Array` byte access is
  `Char.toNat` with an explicit `% 256` (Uint8Array truncation).
- The browser cookie store is a record with one optional slot per cookie
  key (`user_credentials`, `user_state`); the JSON round-trip of the
  profile cookie is modelled by storing the typed profile.
- A `fetch` of `GET /api/users` is modelled by a `BackendOutcome`
  parameter: either a response with an HTTP status and an optional parsed
  JSON body (`none` means `response.json()` throws), or a thrown
  network exception.
- `window.location.href = ...` assignments are recorded in a `redirect`
  field; issued HTTP requests are recorded in a `trace` list, so that
  "performs no backend call" is statable.
-/

/-- Profile subset persisted in the `user_state` cookie by
`storeUserInCookies` (`cookieUtils.js` lines 26-31). -/
structure StoredProfile where
  id : Nat
  emailAddress : String
  firstName : String
  lastName : String
deriving DecidableEq

/-- The authenticated user object built by `signInUser` / restored by
`restoreUserFromCookies`: the profile fields plus the encoded
Basic-Auth credentials. -/
structure AuthUser where
  id : Nat
  emailAddress : String
  firstName : String
  lastName : String
  credentials : String
deriving DecidableEq

/-- Browser cookie store restricted to the two keys the component uses:
`user_credentials` holds the encoded credentials string, `user_state`
holds the JSON-serialised profile (modelled typed). -/
structure CookieStore where
  user_credentials : Option String
  user_state : Option StoredProfile
deriving DecidableEq

/-- Parsed JSON body of a `/api/users` response: the profile fields read
on the success path (`userData.id`, `userData.email`, ...) and the
`message` field read on the error path (`errorData.message`). -/
structure RespBody where
  id : Nat
  email : String
  firstName : String
  lastName : String
  message : Option String
deriving DecidableEq

/-- Outcome of one `fetch('/api/users', ...)` call: an HTTP response
with a status and an optional parsed body (`none` models
`response.json()` throwing), or a thrown network exception. -/
inductive BackendOutcome where
  | response (status : Nat) (body : Option RespBody)
  | exception
deriving DecidableEq

/-- A record of one HTTP request issued by the component. -/
structure ApiRequest where
  url : String
  authorization : Option String
deriving DecidableEq

/-- The result object returned by `signInUser`. -/
structure SignInResult where
  success : Bool
  message : Option String
deriving DecidableEq

/-- State owned by the `UserProvider` component plus the browser-level
effects it performs: `user`/`isInitialized` are the two `useState`
cells, `cookies` the cookie store, `redirect` the last
`window.location.href` assignment, `trace` the HTTP requests issued. -/
structure AppState where
  user : Option AuthUser
  isInitialized : Bool
  cookies : CookieStore
  redirect : Option String
  trace : List ApiRequest
deriving DecidableEq

/-- The state in which the component mounts: no user, not initialized,
whatever cookies the browser holds. -/
def initialAppState (cs : CookieStore) : AppState :=
  { user := none, isInitialized := false, cookies := cs,
    redirect := none, trace := [] }

/-! ## Cookie utilities (`src/client/src/utils/cookieUtils.js`) -/

/-- Projection of an `AuthUser` to the profile subset stored in the
`user_state` cookie (`userStateForStorage`, `cookieUtils.js` 26-31). -/
def storedProfileOf (u : AuthUser) : StoredProfile :=
  { id := u.id, emailAddress := u.emailAddress,
    firstName := u.firstName, lastName := u.lastName }

/-- `storeUserInCookies` (`cookieUtils.js` 20-39): sets the
`user_credentials` cookie to the encoded credentials and the
`user_state` cookie to the profile subset. -/
def storeUserInCookies (userData : AuthUser) (credentials : String)
    (cs : CookieStore) : CookieStore :=
  { cs with user_credentials := some credentials,
            user_state := some (storedProfileOf userData) }

/-- `clearUserCookies` (`cookieUtils.js` 76-85): removes both cookie
entries. -/
def clearUserCookies (_cs : CookieStore) : CookieStore :=
  { user_credentials := none, user_state := none }

/-- `getUserCredentialsFromCookies` (`cookieUtils.js` 46-53):
`Cookies.get(KEY) || null`, so an absent or empty (JS-falsy) value
yields `null`. -/
def getUserCredentialsFromCookies (cs : CookieStore) : Option String :=
  match cs.user_credentials with
  | some s => if s = "" then none else some s
  | none => none

/-- `getUserStateFromCookies` (`cookieUtils.js` 60-71): returns the
parsed profile cookie, or `null` when absent. -/
def getUserStateFromCookies (cs : CookieStore) : Option StoredProfile :=
  cs.user_state

/-! ## Base64 encoders -/

/-- The alphabet string of the hand-rolled encoder in
`src/unnamed/part_000` line 83 (65 characters: the 64 base64 digits
followed by the padding character). -/
def b64Alphabet : List Char :=
  "ABCDEFGHIJKLMNOPQRSTUVWXYZabcdefghijklmnopqrstuvwxyz0123456789+/=".data

/-- Indexing `chars[i]` for the 6-bit values produced by the encoders. -/
def b64char (n : Nat) : Char :=
  b64Alphabet.getD n 'A'

/-- One iteration of the chunk loop (`part_000` lines 93-102):
`byteNum = (b0 << 16) | (b1 << 8) | b2` followed by the four 6-bit
group lookups (out-of-range `Uint8Array` reads give `undefined`, which
the JS shift/or coerces to 0, so callers pass 0 for missing bytes). -/
def encodeChunk3 (b0 b1 b2 : Nat) : List Char :=
  let byteNum := b0 * 65536 + b1 * 256 + b2
  [b64char (byteNum / 262144 % 64), b64char (byteNum / 4096 % 64),
   b64char (byteNum / 64 % 64), b64char (byteNum % 64)]

/-- The chunk loop of `part_000` `encodeBase64` (lines 93-102): `for
(let i = 0; i < bytes.length; i += 3)` steps through the byte list
three at a time; out-of-range reads of the final chunk behave as 0 and
no '=' padding is ever emitted. -/
def encodeBase64Loop : List Nat → List Char
  | [] => []
  | [b0] => encodeChunk3 b0 0 0
  | [b0, b1] => encodeChunk3 b0 b1 0
  | b0 :: b1 :: b2 :: rest => encodeChunk3 b0 b1 b2 ++ encodeBase64Loop rest

namespace Part000

/-- The hand-rolled `encodeBase64` of `src/unnamed/part_000` lines
81-105: fills a `Uint8Array` with `charCodeAt` values (truncated mod
256) and runs the chunk loop. -/
def encodeBase64 (str : String) : String :=
  String.mk (encodeBase64Loop (str.data.map (fun c => c.toNat % 256)))

end Part000

/-- Standard base64 over a byte list, '=' padded: the tail cases emit
the two- and three-character final groups with explicit padding. This is
the reference encoding of the spec's glossary entry
(`base64(email:password)`) and of the platform `btoa`. -/
def btoaLoop : List Nat → List Char
  | [] => []
  | [b0] =>
      [b64char (b0 / 4), b64char (b0 % 4 * 16), '=', '=']
  | [b0, b1] =>
      [b64char (b0 / 4), b64char (b0 % 4 * 16 + b1 / 16),
       b64char (b1 % 16 * 4), '=']
  | b0 :: b1 :: b2 :: rest => encodeChunk3 b0 b1 b2 ++ btoaLoop rest

/-- Modelled from the spec: the platform `btoa` used by
`UserContext.jsx` line 83 and `part_001` line 37 is not repository
code; per the spec's external-interface section it is the standard
base64 encoding of a Latin-1 string, throwing (here `none`) on any
character above U+00FF. -/
def btoa (s : String) : Option String :=
  if s.data.all (fun c => c.toNat < 256) then
    some (String.mk (btoaLoop (s.data.map Char.toNat)))
  else none

/-- `encodeBase64` of `src/client/src/context/UserContext.jsx` lines
81-84: delegates to the platform `btoa`. -/
def encodeBase64 (str : String) : Option String :=
  btoa str

/-! ## Session state container (`src/client/src/context/UserContext.jsx`) -/

/-- The request both `restoreUserFromCookies` and `signInUser` issue:
`GET /api/users` with a `Basic` Authorization header. -/
def apiUsersRequest (credentials : String) : ApiRequest :=
  { url := "/api/users", authorization := some ("Basic " ++ credentials) }

/-- `response.ok` of the Fetch API: status in the inclusive range
200-299. -/
def respOk (status : Nat) : Bool :=
  200 ≤ status && status ≤ 299

/-- `restoreUserFromCookies` (`UserContext.jsx` lines 38-74): reads both
cookies; when both are present (JS-truthy) issues the validation
request; on `response.ok` sets the user to the stored profile spread
together with the stored credentials; otherwise (including a thrown
exception) clears the cookies; the `finally` block always sets
`isInitialized` to true. The response body is never read. -/
def restoreUserFromCookies (outcome : BackendOutcome) (s : AppState) :
    AppState :=
  let s1 :=
    match getUserCredentialsFromCookies s.cookies,
          getUserStateFromCookies s.cookies with
    | some storedCredentials, some storedUserState =>
        let s0 := { s with trace :=
          s.trace ++ [apiUsersRequest storedCredentials] }
        let restored : AuthUser :=
          { id := storedUserState.id,
            emailAddress := storedUserState.emailAddress,
            firstName := storedUserState.firstName,
            lastName := storedUserState.lastName,
            credentials := storedCredentials }
        match outcome with
        | .response status _ =>
            if respOk status then
              { s0 with user := some restored }
            else
              { s0 with cookies := clearUserCookies s0.cookies }
        | .exception =>
            { s0 with cookies := clearUserCookies s0.cookies }
    | _, _ => s
  { s1 with isInitialized := true }

/-- The failure result of the outer `catch` block of `signInUser`. -/
def networkErrorResult : SignInResult :=
  { success := false, message := some "Network error. Please try again." }

/-- `signInUser` (`UserContext.jsx` lines 95-157): encodes
`email:password` (a `btoa` throw lands in the outer catch), issues the
request, and on `response.ok` builds the authenticated user from the
response body, stores it in the cookies and the user state; on 403/500
assigns `window.location.href` and returns the matching failure; on
other non-2xx statuses returns the server message with a JS-falsy
(`||`) fallback; any thrown error yields the generic network failure. -/
def signInUser (emailAddress password : String)
    (outcome : BackendOutcome) (s : AppState) : AppState × SignInResult :=
  match encodeBase64 (emailAddress ++ ":" ++ password) with
  | none => (s, networkErrorResult)
  | some credentials =>
    let s0 := { s with trace :=
      s.trace ++ [apiUsersRequest credentials] }
    match outcome with
    | .exception => (s0, networkErrorResult)
    | .response status body =>
      if respOk status then
        match body with
        | none => (s0, networkErrorResult)
        | some userData =>
          let authenticatedUser : AuthUser :=
            { id := userData.id, emailAddress := userData.email,
              firstName := userData.firstName,
              lastName := userData.lastName,
              credentials := credentials }
          ({ s0 with
              user := some authenticatedUser,
              cookies := storeUserInCookies authenticatedUser credentials
                s0.cookies },
           { success := true, message := none })
      else if status = 403 then
        ({ s0 with redirect := some "/forbidden" },
         { success := false, message := some "Access forbidden" })
      else if status = 500 then
        ({ s0 with redirect := some "/error" },
         { success := false, message := some "Server error occurred" })
      else
        match body with
        | none => (s0, networkErrorResult)
        | some errorData =>
          let msg : String :=
            match errorData.message with
            | some m =>
                if m = "" then "Invalid email address or password" else m
            | none => "Invalid email address or password"
          (s0, { success := false, message := some msg })

/-- `signOutUser` (`UserContext.jsx` lines 163-166): clears the user
state and both cookies; nothing else is touched and no request is
issued. -/
def signOutUser (s : AppState) : AppState :=
  { s with user := none, cookies := clearUserCookies s.cookies }

/-! ## Route guards -/

/-- What a render of the guard component produces: the protected outlet,
the waiting placeholder, or a `Navigate` redirect carrying an optional
`state.from` path. -/
inductive GuardResult where
  | outlet
  | loading
  | navigate (dest : String) (fromPath : Option String)
deriving DecidableEq

/-- `PrivateRoute` of `src/client/src/components/PrivateRoute.jsx`
lines 17-24 (the variant `App.jsx` imports): reads only `user` from the
context and returns `user ? <Outlet/> : <Navigate to="/signin"
replace/>`; the initialization flag and the current location are
available in the environment but unused. -/
def PrivateRoute (user : Option AuthUser) (_isInitialized : Bool)
    (_pathname _search : String) : GuardResult :=
  match user with
  | some _ => .outlet
  | none => .navigate "/signin" none

namespace Part004

/-- `PrivateRoute` of `src/unnamed/part_004` lines 19-47: shows the
loading placeholder until `isInitialized`, then renders the outlet for
an authenticated user and otherwise redirects to `/signin` with
`state.from = location.pathname + location.search`. -/
def PrivateRoute (user : Option AuthUser) (isInitialized : Bool)
    (pathname search : String) : GuardResult :=
  if !isInitialized then .loading
  else
    match user with
    | some _ => .outlet
    | none => .navigate "/signin" (some (pathname ++ search))

end Part004

/-- Both cookie entries present or both absent: the consistency
invariant of the stored session snapshot. -/
def bothOrNeither (cs : CookieStore) : Prop :=
  cs.user_credentials.isSome = cs.user_state.isSome

instance (cs : CookieStore) : Decidable (bothOrNeither cs) := by
  unfold bothOrNeither
  infer_instance

/-- A backend outcome on which the validation request does not succeed:
a response outside the 2xx range, or a thrown exception. -/
def backendRejects : BackendOutcome → Bool
  | .response status _ => !respOk status
  | .exception => true

/-! ## Helper lemmas -/

/-- Case analysis of `restoreUserFromCookies` on the cookie store: the
cookies either come out untouched or fully cleared. -/
theorem restore_cookies_cases (outcome : BackendOutcome) (s : AppState) :
    (restoreUserFromCookies outcome s).cookies = s.cookies ∨
    (restoreUserFromCookies outcome s).cookies = clearUserCookies s.cookies := by
  unfold restoreUserFromCookies
  rcases hc : getUserCredentialsFromCookies s.cookies with _ | creds
  · left; simp [hc]
  · rcases hp : getUserStateFromCookies s.cookies with _ | prof
    · left; simp [hc, hp]
    · rcases outcome with ⟨status, body⟩ | _
      · by_cases hok : respOk status
        · left; simp [hc, hp, hok]
        · right; simp [hc, hp, hok, clearUserCookies]
      · right; simp [hc, hp, clearUserCookies]

/-- Case analysis of `signInUser`: either the user state and the
cookies are untouched and the result is a failure, or some user is
installed, both cookie entries are written, and the result is a
success. -/
theorem signInUser_cases (emailAddress password : String)
    (outcome : BackendOutcome) (s : AppState) :
    ((signInUser emailAddress password outcome s).1.user = s.user ∧
     (signInUser emailAddress password outcome s).1.cookies = s.cookies ∧
     (signInUser emailAddress password outcome s).2.success = false) ∨
    (∃ u : AuthUser,
     (signInUser emailAddress password outcome s).1.user = some u ∧
     (signInUser emailAddress password outcome s).1.cookies =
       storeUserInCookies u u.credentials s.cookies ∧
     (signInUser emailAddress password outcome s).2.success = true) := by
  unfold signInUser
  rcases hb : encodeBase64 (emailAddress ++ ":" ++ password) with _ | credentials
  · left; simp [networkErrorResult]
  · rcases outcome with ⟨status, body⟩ | _
    · by_cases hok : respOk status
      · rcases body with _ | userData
        · left; simp [hok, networkErrorResult]
        · right
          refine ⟨{ id := userData.id, emailAddress := userData.email,
                    firstName := userData.firstName,
                    lastName := userData.lastName,
                    credentials := credentials }, ?_, ?_, ?_⟩ <;>
            simp [hok, storeUserInCookies]
      · by_cases h403 : status = 403
        · subst h403; left; simp [hok]
        · by_cases h500 : status = 500
          · subst h500; left; simp [hok, h403]
          · rcases body with _ | errorData
            · left; simp [hok, h403, h500, networkErrorResult]
            · left; simp [hok, h403, h500]
    · left; simp [networkErrorResult]

/-! ## Claims -/

/-- Claim C6: `restore()` always terminates with `initialized = true`,
for every initial app state (hence every cookie configuration) and
every backend outcome; the `finally` block runs on every path. -/
theorem restore_always_initialized (outcome : BackendOutcome)
    (s : AppState) :
    (restoreUserFromCookies outcome s).isInitialized = true := rfl

/-- Claim C9: `signOut()` empties the session, removes both cookie
entries, and issues no backend request (the request trace is
unchanged), from every prior state. -/
theorem signOut_clears_session_and_cookies (s : AppState) :
    (signOutUser s).user = none ∧
    (signOutUser s).cookies =
      { user_credentials := none, user_state := none } ∧
    (signOutUser s).trace = s.trace :=
  ⟨rfl, rfl, rfl⟩

/-- Claim C1 counterexample: with both cookies present and a 2xx
response whose body carries a profile differing from the stored one
(`firstName` "X" instead of "A"), the restored session holds the
STORED profile plus credentials, not the response profile plus
credentials — `restoreUserFromCookies` never reads the response body. -/
theorem restore_session_not_response_profile :
    (restoreUserFromCookies
        (.response 200 (some ⟨1, "a@b.com", "X", "B", none⟩))
        (initialAppState
          ⟨some "Y3JlZHM=", some ⟨1, "a@b.com", "A", "B"⟩⟩)).user =
      some ⟨1, "a@b.com", "A", "B", "Y3JlZHM="⟩ ∧
    (restoreUserFromCookies
        (.response 200 (some ⟨1, "a@b.com", "X", "B", none⟩))
        (initialAppState
          ⟨some "Y3JlZHM=", some ⟨1, "a@b.com", "A", "B"⟩⟩)).user ≠
      some ⟨1, "a@b.com", "X", "B", "Y3JlZHM="⟩ := by
  constructor
  · rfl
  · decide

/-- Claim C1 (amended): for every cookie store holding both a stored
credentials string and a stored profile, when `restore()` receives a
2xx response to its `GET /api/users` validation request (issued with
those credentials as a Basic-Auth header), the resulting session equals
the STORED cookie profile combined with the stored credentials; the
response body is not consulted. -/
theorem restore_success_session (cs : CookieStore)
    (creds : String) (prof : StoredProfile)
    (hc : getUserCredentialsFromCookies cs = some creds)
    (hp : getUserStateFromCookies cs = some prof)
    (status : Nat) (body : Option RespBody)
    (hok : respOk status = true) :
    (restoreUserFromCookies (.response status body)
        (initialAppState cs)).user =
      some ⟨prof.id, prof.emailAddress, prof.firstName,
            prof.lastName, creds⟩ ∧
    (restoreUserFromCookies (.response status body)
        (initialAppState cs)).isInitialized = true ∧
    (restoreUserFromCookies (.response status body)
        (initialAppState cs)).trace = [apiUsersRequest creds] := by
  unfold restoreUserFromCookies initialAppState
  simp [hc, hp, hok]

/-- Concrete instance of `restore_success_session`. -/
theorem restore_success_session_witness :
    (restoreUserFromCookies (.response 200 none)
        (initialAppState ⟨some "abc", some ⟨1, "e", "f", "l"⟩⟩)).user =
      some ⟨1, "e", "f", "l", "abc"⟩ ∧
    (restoreUserFromCookies (.response 200 none)
        (initialAppState ⟨some "abc", some ⟨1, "e", "f", "l"⟩⟩)).isInitialized
      = true ∧
    (restoreUserFromCookies (.response 200 none)
        (initialAppState ⟨some "abc", some ⟨1, "e", "f", "l"⟩⟩)).trace =
      [apiUsersRequest "abc"] := by
  exact restore_success_session ⟨some "abc", some ⟨1, "e", "f", "l"⟩⟩
    "abc" ⟨1, "e", "f", "l"⟩ (by decide) rfl 200 none (by decide)

/-- Claim C5: with both cookies present, a non-2xx response or a thrown
exception leaves the session empty, clears both cookie entries, and
still sets `initialized = true`. -/
theorem restore_failure_clears_cookies (cs : CookieStore)
    (creds : String) (prof : StoredProfile)
    (hc : getUserCredentialsFromCookies cs = some creds)
    (hp : getUserStateFromCookies cs = some prof)
    (outcome : BackendOutcome)
    (hf : backendRejects outcome = true) :
    (restoreUserFromCookies outcome (initialAppState cs)).user = none ∧
    (restoreUserFromCookies outcome (initialAppState cs)).cookies =
      { user_credentials := none, user_state := none } ∧
    (restoreUserFromCookies outcome (initialAppState cs)).isInitialized
      = true := by
  unfold restoreUserFromCookies initialAppState
  rcases outcome with ⟨status, body⟩ | _
  · have hok : respOk status = false := by
      simpa [backendRejects] using hf
    simp [hc, hp, hok, clearUserCookies]
  · simp [hc, hp, clearUserCookies]

/-- Concrete instance of `restore_failure_clears_cookies`. -/
theorem restore_failure_clears_cookies_witness :
    (restoreUserFromCookies (.response 401 none)
        (initialAppState ⟨some "abc", some ⟨1, "e", "f", "l"⟩⟩)).user =
      none ∧
    (restoreUserFromCookies (.response 401 none)
        (initialAppState ⟨some "abc", some ⟨1, "e", "f", "l"⟩⟩)).cookies =
      { user_credentials := none, user_state := none } ∧
    (restoreUserFromCookies (.response 401 none)
        (initialAppState ⟨some "abc", some ⟨1, "e", "f", "l"⟩⟩)).isInitialized
      = true := by
  exact restore_failure_clears_cookies ⟨some "abc", some ⟨1, "e", "f", "l"⟩⟩
    "abc" ⟨1, "e", "f", "l"⟩ (by decide) rfl (.response 401 none) (by decide)

/-- Claim C2: evaluation at the failing input. For email "" and
password "" the credential input string is ":"; the hand-rolled
`encodeBase64` of `part_000` emits "OgAA" (alphabet character 'A' where
'=' padding belongs, because the chunk loop reads the missing trailing
bytes as 0 and never substitutes padding), while the platform `btoa` /
standard base64 of ":" is "Og==". The two encoders therefore disagree,
and the `part_000` variant of signIn does not send standard base64 for
inputs whose byte length is not a multiple of 3. On multiple-of-3
inputs such as "a:b" they agree. -/
theorem encodeBase64_padding_divergence :
    Part000.encodeBase64 ":" = "OgAA" ∧
    btoa ":" = some "Og==" ∧
    Part000.encodeBase64 ":" ≠ "Og==" ∧
    Part000.encodeBase64 "a:b" = "YTpi" ∧
    btoa "a:b" = some "YTpi" := by
  refine ⟨rfl, rfl, ?_, rfl, rfl⟩
  decide

/-- Claim C3 counterexample: the `PrivateRoute` variant that `App.jsx`
imports (`src/client/src/components/PrivateRoute.jsx`) redirects an
empty session to `/signin` WITHOUT preserving the requested path, and
it redirects even while the session is not yet initialized instead of
rendering a waiting placeholder. -/
theorem privateRoute_drops_requested_path :
    PrivateRoute none false "/courses/create" "" =
      .navigate "/signin" none ∧
    GuardResult.navigate "/signin" none ≠ .loading ∧
    GuardResult.navigate "/signin" none ≠
      .navigate "/signin" (some "/courses/create") := by
  refine ⟨rfl, ?_, ?_⟩ <;> decide

/-- Claim C3 (amended): the `part_004` revision of the route guard
behaves as the claim states — while not yet initialized it renders the
waiting placeholder; once initialized, an empty session is redirected
to `/signin` carrying `state.from = pathname + search`, and a non-empty
session reaches the outlet. The `PrivateRoute.jsx` variant that
`App.jsx` imports instead redirects unconditionally (no placeholder)
and drops the requested path. -/
theorem part004_privateRoute_guard (user : Option AuthUser)
    (pathname search : String) :
    Part004.PrivateRoute user false pathname search = .loading ∧
    Part004.PrivateRoute none true pathname search =
      .navigate "/signin" (some (pathname ++ search)) ∧
    (∀ u : AuthUser,
      Part004.PrivateRoute (some u) true pathname search = .outlet) := by
  refine ⟨rfl, rfl, fun u => rfl⟩

/-- Claim C4: `signIn` is a total function of the backend outcome (it
never throws past its boundary) and maps each failure outcome as the
claim states: a 403 response sets the forbidden redirect and returns
`success:false` with the access-forbidden message; a 500 response sets
the server-error redirect and returns `success:false`; any other
non-2xx response returns `success:false` carrying the server-provided
message (a JS-falsy empty message counts as absent) or the default
invalid-credentials message; a thrown network exception, and a 2xx
body that fails to parse, return the generic network-error failure. -/
theorem signIn_error_taxonomy (emailAddress password credentials : String)
    (s : AppState)
    (hb : encodeBase64 (emailAddress ++ ":" ++ password) =
      some credentials) :
    (∀ body,
      (signInUser emailAddress password (.response 403 body) s).2 =
        { success := false, message := some "Access forbidden" } ∧
      (signInUser emailAddress password (.response 403 body) s).1.redirect
        = some "/forbidden") ∧
    (∀ body,
      (signInUser emailAddress password (.response 500 body) s).2 =
        { success := false, message := some "Server error occurred" } ∧
      (signInUser emailAddress password (.response 500 body) s).1.redirect
        = some "/error") ∧
    (∀ status errorData, respOk status = false →
      status ≠ 403 → status ≠ 500 →
      (signInUser emailAddress password
          (.response status (some errorData)) s).2 =
        { success := false, message := some
            (match errorData.message with
             | some m =>
                 if m = "" then "Invalid email address or password" else m
             | none => "Invalid email address or password") }) ∧
    (∀ status, respOk status = false → status ≠ 403 → status ≠ 500 →
      (signInUser emailAddress password (.response status none) s).2 =
        networkErrorResult) ∧
    ((signInUser emailAddress password .exception s).2 =
      networkErrorResult) := by
  refine ⟨fun body => ?_, fun body => ?_,
    fun status errorData hok h403 h500 => ?_,
    fun status hok h403 h500 => ?_, ?_⟩
  · simp [signInUser, hb, respOk]
  · simp [signInUser, hb, respOk]
  · simp [signInUser, hb, hok, h403, h500]
  · simp [signInUser, hb, hok, h403, h500, networkErrorResult]
  · simp [signInUser, hb]

/-- Concrete instance of `signIn_error_taxonomy`: a 403 response and a
404 response with a server message. -/
theorem signIn_error_taxonomy_witness :
    (signInUser "a@b.com" "pw" (.response 403 none)
        (initialAppState ⟨none, none⟩)).1.redirect = some "/forbidden" ∧
    (signInUser "a@b.com" "pw"
        (.response 404 (some ⟨0, "", "", "", some "no user"⟩))
        (initialAppState ⟨none, none⟩)).2 =
      { success := false, message := some "no user" } ∧
    (signInUser "a@b.com" "pw" .exception
        (initialAppState ⟨none, none⟩)).2 = networkErrorResult := by
  have h := signIn_error_taxonomy "a@b.com" "pw" "YUBiLmNvbTpwdw=="
    (initialAppState ⟨none, none⟩) (by decide)
  refine ⟨(h.1 none).2, ?_, h.2.2.2.2⟩
  exact h.2.2.1 404 ⟨0, "", "", "", some "no user"⟩ (by decide)
    (by decide) (by decide)

/-- Claim C7: when the backend answers 200 with a profile carrying
`id = 1` and `firstName = "A"`, `signIn` returns a success result, the
session holds that profile together with the encoded credentials, and
both the credentials and the profile subset are written to the cookie
store. -/
theorem signIn_success_session_and_cookies
    (emailAddress password credentials : String) (s : AppState)
    (hb : encodeBase64 (emailAddress ++ ":" ++ password) =
      some credentials)
    (bodyEmail bodyLast : String) (bodyMsg : Option String) :
    (signInUser emailAddress password
        (.response 200 (some ⟨1, bodyEmail, "A", bodyLast, bodyMsg⟩))
        s).2 = { success := true, message := none } ∧
    (signInUser emailAddress password
        (.response 200 (some ⟨1, bodyEmail, "A", bodyLast, bodyMsg⟩))
        s).1.user = some ⟨1, bodyEmail, "A", bodyLast, credentials⟩ ∧
    (signInUser emailAddress password
        (.response 200 (some ⟨1, bodyEmail, "A", bodyLast, bodyMsg⟩))
        s).1.cookies.user_credentials = some credentials ∧
    (signInUser emailAddress password
        (.response 200 (some ⟨1, bodyEmail, "A", bodyLast, bodyMsg⟩))
        s).1.cookies.user_state = some ⟨1, bodyEmail, "A", bodyLast⟩ := by
  simp [signInUser, hb, respOk, storeUserInCookies, storedProfileOf]

/-- Concrete instance of `signIn_success_session_and_cookies`:
`signIn("a@b.com","pw")` against a 200 response. -/
theorem signIn_success_session_and_cookies_witness :
    (signInUser "a@b.com" "pw"
        (.response 200 (some ⟨1, "a@b.com", "A", "B", none⟩))
        (initialAppState ⟨none, none⟩)).2 =
      { success := true, message := none } ∧
    (signInUser "a@b.com" "pw"
        (.response 200 (some ⟨1, "a@b.com", "A", "B", none⟩))
        (initialAppState ⟨none, none⟩)).1.user =
      some ⟨1, "a@b.com", "A", "B", "YUBiLmNvbTpwdw=="⟩ ∧
    (signInUser "a@b.com" "pw"
        (.response 200 (some ⟨1, "a@b.com", "A", "B", none⟩))
        (initialAppState ⟨none, none⟩)).1.cookies.user_credentials =
      some "YUBiLmNvbTpwdw==" ∧
    (signInUser "a@b.com" "pw"
        (.response 200 (some ⟨1, "a@b.com", "A", "B", none⟩))
        (initialAppState ⟨none, none⟩)).1.cookies.user_state =
      some ⟨1, "a@b.com", "A", "B"⟩ := by
  exact signIn_success_session_and_cookies "a@b.com" "pw"
    "YUBiLmNvbTpwdw==" (initialAppState ⟨none, none⟩) (by decide)
    "a@b.com" "B" none

/-- Claim C10: whenever `signIn` returns a failure result — a 403
response, a 500 response, any other non-2xx response, an unparsable
body, or a thrown exception — the session user and the cookie store
are exactly as they were before the call; only a 2xx outcome mutates
them. -/
theorem signIn_failure_preserves_state
    (emailAddress password : String) (outcome : BackendOutcome)
    (s : AppState)
    (h : (signInUser emailAddress password outcome s).2.success = false) :
    (signInUser emailAddress password outcome s).1.user = s.user ∧
    (signInUser emailAddress password outcome s).1.cookies = s.cookies := by
  rcases signInUser_cases emailAddress password outcome s with
    ⟨hu, hcs, _⟩ | ⟨u, _, _, hsucc⟩
  · exact ⟨hu, hcs⟩
  · rw [hsucc] at h
    cases h

/-- Concrete instance of `signIn_failure_preserves_state` at a 403
response. -/
theorem signIn_failure_preserves_state_witness :
    (signInUser "a@b.com" "pw" (.response 403 none)
        (initialAppState ⟨some "x", some ⟨2, "e", "f", "l"⟩⟩)).1.user =
      (initialAppState ⟨some "x", some ⟨2, "e", "f", "l"⟩⟩).user ∧
    (signInUser "a@b.com" "pw" (.response 403 none)
        (initialAppState ⟨some "x", some ⟨2, "e", "f", "l"⟩⟩)).1.cookies =
      (initialAppState ⟨some "x", some ⟨2, "e", "f", "l"⟩⟩).cookies := by
  exact signIn_failure_preserves_state "a@b.com" "pw" (.response 403 none)
    (initialAppState ⟨some "x", some ⟨2, "e", "f", "l"⟩⟩) (by decide)

/-- Claim C8: from a cookie store whose two entries are both present or
both absent, every operation of the session component — `signIn` (any
outcome), `restore` (any outcome), `signOut`, and the raw cookie
helpers `storeUserInCookies` and `clearUserCookies` — leaves the two
entries again both present or both absent. -/
theorem cookie_entries_both_or_neither (s : AppState)
    (h : bothOrNeither s.cookies)
    (outcome : BackendOutcome) (emailAddress password : String)
    (u : AuthUser) (c : String) (cs : CookieStore) :
    bothOrNeither (signInUser emailAddress password outcome s).1.cookies ∧
    bothOrNeither (restoreUserFromCookies outcome s).cookies ∧
    bothOrNeither (signOutUser s).cookies ∧
    bothOrNeither (storeUserInCookies u c cs) ∧
    bothOrNeither (clearUserCookies cs) := by
  refine ⟨?_, ?_, rfl, rfl, rfl⟩
  · rcases signInUser_cases emailAddress password outcome s with
      ⟨_, hcs, _⟩ | ⟨v, _, hcs, _⟩
    · rw [hcs]; exact h
    · rw [hcs]; rfl
  · rcases restore_cookies_cases outcome s with hcs | hcs
    · rw [hcs]; exact h
    · rw [hcs]; rfl

/-- Concrete instance of `cookie_entries_both_or_neither`. -/
theorem cookie_entries_both_or_neither_witness :
    bothOrNeither (signInUser "a@b.com" "pw" .exception
      (initialAppState ⟨none, none⟩)).1.cookies ∧
    bothOrNeither (restoreUserFromCookies .exception
      (initialAppState ⟨none, none⟩)).cookies ∧
    bothOrNeither (signOutUser (initialAppState ⟨none, none⟩)).cookies ∧
    bothOrNeither (storeUserInCookies ⟨1, "e", "f", "l", "c"⟩ "c"
      ⟨none, none⟩) ∧
    bothOrNeither (clearUserCookies ⟨none, none⟩) := by
  exact cookie_entries_both_or_neither (initialAppState ⟨none, none⟩)
    (by decide) .exception "a@b.com" "pw" ⟨1, "e", "f", "l", "c"⟩ "c"
    ⟨none, none⟩
